import Mathlib

/-!
Shallow embedding of the solax-mon solar monitor (src/srv.py and src/grid.py).

Python runtime values relevant to the monitor are modelled by `PyVal`;
Python floats are modelled by exact rationals (the spec's threshold
comparisons do not depend on binary rounding).  A reading's `data`
dictionary is an association list from metric names to values.  Fallible
Python operations (float(), arithmetic, comparisons on mixed types) return
`Option`, with `Option.none` standing for a raised TypeError/ValueError.
-/

/-- Model of a Python runtime value as stored in an inverter reading's
`data` dictionary: ints, floats (as exact rationals), strings, booleans,
`None`, or some other non-numeric object. -/
inductive PyVal where
  | int : Int → PyVal
  | float : ℚ → PyVal
  | str : String → PyVal
  | bool : Bool → PyVal
  | none : PyVal
  | obj : PyVal
deriving DecidableEq, Repr

/-- Parse a list of decimal digit characters as a natural number; fails on
any non-digit character. -/
def parseDigits (cs : List Char) : Option Nat :=
  cs.foldlM (fun acc c => if c.isDigit then some (acc * 10 + (c.toNat - 48)) else Option.none) 0

/-- Model of Python `float(s)` on a string `s`: an optional sign followed by
a plain decimal literal (digits, optionally a dot and more digits).  At
least one digit must be present; anything else raises ValueError
(`Option.none`). -/
def parseFloat (s : String) : Option ℚ :=
  let cs := s.toList
  let signAndRest : Bool × List Char :=
    match cs with
    | '-' :: rest => (true, rest)
    | '+' :: rest => (false, rest)
    | _ => (false, cs)
  let intPart := signAndRest.2.takeWhile (fun c => c ≠ '.')
  let rest := signAndRest.2.dropWhile (fun c => c ≠ '.')
  let fracPart := rest.drop 1
  if intPart = [] ∧ fracPart = [] then Option.none
  else
    match parseDigits intPart, parseDigits fracPart with
    | some ip, some fp =>
        let mag : ℚ := (ip : ℚ) + (fp : ℚ) / ((10 : ℚ) ^ fracPart.length)
        some (if signAndRest.1 then -mag else mag)
    | _, _ => Option.none

/-- Model of Python `float(v)`: succeeds on ints, floats and bools, parses
strings, and raises (returns `Option.none`) on `None` and other objects. -/
def pyFloat : PyVal → Option ℚ
  | PyVal.int n => some (n : ℚ)
  | PyVal.float q => some q
  | PyVal.bool b => some (if b then 1 else 0)
  | PyVal.str s => parseFloat s
  | PyVal.none => Option.none
  | PyVal.obj => Option.none

/-- A reading's `data` dictionary (`InverterResponse.data`): metric name to
value. -/
def PyDict : Type := List (String × PyVal)

instance : DecidableEq PyDict := by
  unfold PyDict
  infer_instance

/-- Model of Python `d.get(k, dflt)` on a reading dictionary. -/
def pyGet (d : PyDict) (k : String) (dflt : PyVal) : PyVal :=
  match List.find? (fun p => p.1 == k) d with
  | some p => p.2
  | Option.none => dflt

/-- Decimal digits of the fraction `r / d` (with `r < d`) produced by long
division, up to `fuel` digits; stops when the remainder reaches zero.
17 digits of fuel suffice for every decimal fraction a Python float
displays. -/
def fracDigits : Nat → Nat → Nat → String
  | 0, _, _ => ""
  | _, 0, _ => ""
  | Nat.succ fuel, r, d =>
      let q := r * 10 / d
      toString q ++ fracDigits fuel (r * 10 % d) d

/-- Model of Python `str(x)` on a float with exact value `q`: sign, integer
part, a dot, then the fractional digits (`"250.0"` for 250, `"0.5"` for
1/2). -/
def pyFloatStr (q : ℚ) : String :=
  let sign := if q < 0 then "-" else ""
  let n := q.num.natAbs
  let d := q.den
  let frac := if n % d = 0 then "0" else fracDigits 17 (n % d) d
  sign ++ toString (n / d) ++ "." ++ frac

/-- Model of Python f-string interpolation of a `PyVal`. -/
def pyStr : PyVal → String
  | PyVal.int n => toString n
  | PyVal.float q => pyFloatStr q
  | PyVal.str s => s
  | PyVal.bool b => if b then "True" else "False"
  | PyVal.none => "None"
  | PyVal.obj => "<object>"

/-- Model of Python `a + b` on reading values: numeric addition (bools count
as 0/1), string concatenation, and TypeError (`Option.none`) on any other
combination. -/
def pyAdd : PyVal → PyVal → Option PyVal
  | PyVal.int a, PyVal.int b => some (PyVal.int (a + b))
  | PyVal.int a, PyVal.float b => some (PyVal.float ((a : ℚ) + b))
  | PyVal.float a, PyVal.int b => some (PyVal.float (a + (b : ℚ)))
  | PyVal.float a, PyVal.float b => some (PyVal.float (a + b))
  | PyVal.bool a, PyVal.bool b => some (PyVal.int ((if a then 1 else 0) + (if b then 1 else 0)))
  | PyVal.bool a, PyVal.int b => some (PyVal.int ((if a then 1 else 0) + b))
  | PyVal.int a, PyVal.bool b => some (PyVal.int (a + (if b then 1 else 0)))
  | PyVal.bool a, PyVal.float b => some (PyVal.float ((if a then (1 : ℚ) else 0) + b))
  | PyVal.float a, PyVal.bool b => some (PyVal.float (a + (if b then (1 : ℚ) else 0)))
  | PyVal.str a, PyVal.str b => some (PyVal.str (a ++ b))
  | _, _ => Option.none

/-- `SolarMonitor.check_critical_conditions` (src/srv.py lines 157-174):
convert the two PV powers, the battery capacity and the grid power to
float; return whether combined PV power is below 100, battery below 5 and
grid power exactly 0.  Any TypeError/ValueError during the conversions is
caught and yields `false`. -/
def check_critical_conditions (d : PyDict) : Bool :=
  match pyFloat (pyGet d "PV1 Power" (PyVal.float 0)),
        pyFloat (pyGet d "PV2 Power" (PyVal.float 0)),
        pyFloat (pyGet d "Battery Remaining Capacity" (PyVal.float 0)),
        pyFloat (pyGet d "Grid Power " (PyVal.float 0)) with
  | some pv1, some pv2, some bat, some grid =>
      decide (pv1 + pv2 < 100 ∧ bat < 5 ∧ grid = 0)
  | _, _, _, _ => false

/-- `SolarMonitor.get_grid_status` (src/srv.py lines 110-130): convert the
argument to float; 0 maps to ("Disconnected", "OFF"), negative values to
("Consuming |g|W", "ON"), positive values to ("Feeding gW", "ON"); a
TypeError/ValueError in the conversion is caught and yields
("Error", "Unknown"). -/
def get_grid_status (grid_power : PyVal) : String × String :=
  match pyFloat grid_power with
  | some g =>
      if g = 0 then ("Disconnected", "OFF")
      else if g < 0 then ("Consuming " ++ pyFloatStr |g| ++ "W", "ON")
      else ("Feeding " ++ pyFloatStr g ++ "W", "ON")
  | Option.none => ("Error", "Unknown")

/-- Mutable state of a `SolarMonitor` instance (src/srv.py lines 88-90):
`last_alert_time` (set in `__init__`, never written again) and
`current_data`, the published Snapshot (None until the first successful
poll). -/
structure MonitorState where
  last_alert_time : Int
  current_data : Option PyDict
deriving DecidableEq

/-- Observable events of one iteration of `SolarMonitor.monitor_system`
(src/srv.py lines 199-223): the poll, the Snapshot publication, the
Discord alert, the 60-second pre-shutdown cooldown sleep, the
`shutdown_server` escalation call, and the end-of-cycle 60-second sleep. -/
inductive MEvent where
  | poll
  | publish
  | alert
  | sleepCooldown
  | shutdown
  | sleepInterval
deriving DecidableEq, Repr

/-- Event trace of one `monitor_system` cycle, as a function of the poll's
outcome (`Option.none` models a fetch that raised, timed out or returned
None).  The coroutine is sequential: on a critical reading the alert, the
cooldown sleep and the escalation run to completion, in that order, before
the end-of-cycle sleep and the next poll. -/
def cycleTrace (r : Option PyDict) : List MEvent :=
  match r with
  | Option.none => [MEvent.poll, MEvent.sleepInterval]
  | some d =>
      if check_critical_conditions d then
        [MEvent.poll, MEvent.publish, MEvent.alert, MEvent.sleepCooldown,
         MEvent.shutdown, MEvent.sleepInterval]
      else
        [MEvent.poll, MEvent.publish, MEvent.sleepInterval]

/-- Event trace of a run of `monitor_system` over a list of successive poll
outcomes. -/
def monitorTrace (rs : List (Option PyDict)) : List MEvent :=
  rs.flatMap cycleTrace

/-- State update of one `monitor_system` cycle: a successful poll replaces
`current_data` wholesale; a failed poll changes nothing. -/
def monitorCycleState (s : MonitorState) (r : Option PyDict) : MonitorState :=
  match r with
  | Option.none => s
  | some d => { s with current_data := some d }

/-- Automaton deciding that no alert event fires while a previous alert's
escalation (the `shutdown_server` call) is still pending; the flag records
a pending escalation. -/
def alertsSep : List MEvent → Bool → Bool
  | [], _ => true
  | MEvent.alert :: rest, pending => !pending && alertsSep rest true
  | MEvent.shutdown :: rest, _ => alertsSep rest false
  | _ :: rest, pending => alertsSep rest pending
  
/-- Automaton deciding that no poll event fires between an alert and the
completion of its escalation (the cooldown window); the flag records an
open cooldown window. -/
def noPollInCooldown : List MEvent → Bool → Bool
  | [], _ => true
  | MEvent.alert :: rest, _ => noPollInCooldown rest true
  | MEvent.shutdown :: rest, _ => noPollInCooldown rest false
  | MEvent.poll :: rest, c => !c && noPollInCooldown rest c
  | _ :: rest, c => noPollInCooldown rest c

/-- HTTP response of the status server: `send_error` with a code and
message, or a 200 response whose JSON body is the ordered field list. -/
inductive HttpResponse where
  | errorResp : Nat → String → HttpResponse
  | okResp : Nat → List (String × String) → HttpResponse
deriving DecidableEq

/-- `SolarStatusServer.do_GET` (src/srv.py lines 226-255).  The argument is
`Option.none` when the server object has no `solar_monitor` attribute.
With a monitor present: if `current_data` is None, send error 500
"No data available"; otherwise convert the stored grid power to float
(a failure there is caught and sent as a 500), classify it with
`get_grid_status`, build the four-field status object (the PV f-string
adds the two raw PV values, which can itself raise a caught TypeError),
and send it as a 200 JSON response. -/
def do_GET (monitor : Option MonitorState) : HttpResponse :=
  match monitor with
  | Option.none => HttpResponse.errorResp 500 "Monitor not initialized"
  | some m =>
      match m.current_data with
      | Option.none => HttpResponse.errorResp 500 "No data available"
      | some d =>
          match pyFloat (pyGet d "Grid Power " (PyVal.float 0)) with
          | Option.none => HttpResponse.errorResp 500 "could not convert grid power to float"
          | some gp =>
              let gs := get_grid_status (PyVal.float gp)
              match pyAdd (pyGet d "PV1 Power" (PyVal.float 0))
                          (pyGet d "PV2 Power" (PyVal.float 0)) with
              | Option.none => HttpResponse.errorResp 500 "unsupported operand types"
              | some solar =>
                  HttpResponse.okResp 200
                    [("Grid", gs.1 ++ " (" ++ gs.2 ++ ")"),
                     ("Solar Panels", pyStr solar ++ "W"),
                     ("Batteries", pyStr (pyGet d "Battery Remaining Capacity" (PyVal.float 0)) ++ "%"),
                     ("Home Consumption", pyStr (pyGet d "Load/Generator Power" (PyVal.float 0)) ++ "W")]

/-- Model of `json.dumps` on a string-valued JSON object whose keys and
values contain no characters needing escapes, with Python's default
", " and ": " separators and insertion order preserved. -/
def jsonDumps (obj : List (String × String)) : String :=
  "\x7b" ++ String.intercalate ", "
    (obj.map (fun p => "\"" ++ p.1 ++ "\": \"" ++ p.2 ++ "\"")) ++ "\x7d"

/-- One outbound webhook delivery: target URL and JSON payload. -/
structure WebhookCall where
  url : String
  payload : List (String × String)
deriving DecidableEq

/-- Severity of a log record. -/
inductive LogLevel where
  | info
  | error
deriving DecidableEq

/-- `SolarMonitor.send_discord_alert` (src/srv.py lines 176-183), as a
function of the message and of whether the `requests.post` transport
raises.  It returns the outbound calls made, the log records produced and
the Python return value: one POST of payload content=message to the
configured webhook URL, an info log on success, an error log on a caught
transport failure, and return value None on both paths (the function body
has no return statement). -/
def send_discord_alert (webhookUrl message : String) (transportFails : Bool) :
    List WebhookCall × List (LogLevel × String) × PyVal :=
  ([{ url := webhookUrl, payload := [("content", message)] }],
   (if transportFails then [(LogLevel.error, "Failed to send Discord alert")]
    else [(LogLevel.info, "Discord alert sent: " ++ message)]),
   PyVal.none)

/-- Model of the Python comparison `v > 0` on a reading value: decided on
ints, floats and bools; a TypeError (`Option.none`) on strings, None and
other objects. -/
def pyGtZero : PyVal → Option Bool
  | PyVal.int n => some (decide (0 < n))
  | PyVal.float q => some (decide (0 < q))
  | PyVal.bool b => some b
  | _ => Option.none

/-- Model of Python `any(v > 0 for v in vs)`: short-circuits at the first
true comparison, so values after it are never compared. -/
def anyGtZero : List PyVal → Option Bool
  | [] => some false
  | v :: vs =>
      match pyGtZero v with
      | some true => some true
      | some false => anyGtZero vs
      | Option.none => Option.none

/-- Model of Python `abs(v) < bound` for an integer literal bound: decided
on ints, floats and bools; a TypeError on anything else. -/
def pyAbsLtInt (v : PyVal) (bound : Int) : Option Bool :=
  match v with
  | PyVal.int n => some (decide (|n| < bound))
  | PyVal.float q => some (decide (|q| < (bound : ℚ)))
  | PyVal.bool b => some (decide ((if b then 1 else 0 : Int) < bound))
  | _ => Option.none

/-- Model of Python `v.lower()`: succeeds on strings, raises an
AttributeError (`Option.none`) on anything else. -/
def pyLower : PyVal → Option String
  | PyVal.str s => some s.toLower
  | _ => Option.none

/-- The EPS fallback of `determine_grid_status` (src/grid.py lines 54-63):
Off-Grid if any of the three EPS power channels is above zero, otherwise
Uncertain. -/
def epsBranch (d : PyDict) : Option String :=
  match anyGtZero [pyGet d "EPS 1 Power" (PyVal.int 0),
                   pyGet d "EPS 2 Power" (PyVal.int 0),
                   pyGet d "EPS 3 Power" (PyVal.int 0)] with
  | some true => some "Off-Grid"
  | some false => some "Uncertain"
  | Option.none => Option.none

/-- Body of `determine_grid_status` (src/grid.py lines 32-63) inside its
try block; `Option.none` models an exception escaping to the handler.
Lower-case the run mode (default ""); when it equals "normal", test the
three grid voltages (short-circuiting) and then `abs(grid_power) < 500`
(only evaluated when some voltage was positive, exactly as Python's `and`
behaves); On-Grid when both hold, otherwise fall through to the EPS
check. -/
def determine_grid_status_body (d : PyDict) : Option String :=
  match pyLower (pyGet d "Run mode text" (PyVal.str "")) with
  | Option.none => Option.none
  | some rm =>
      if rm = "normal" then
        match anyGtZero [pyGet d "Grid 1 Voltage" (PyVal.int 0),
                         pyGet d "Grid 2 Voltage" (PyVal.int 0),
                         pyGet d "Grid 3 Voltage" (PyVal.int 0)] with
        | Option.none => Option.none
        | some false => epsBranch d
        | some true =>
            match pyAbsLtInt (pyGet d "Grid Power " (PyVal.int 0)) 500 with
            | Option.none => Option.none
            | some true => some "On-Grid"
            | some false => epsBranch d
      else epsBranch d

/-- `determine_grid_status` (src/grid.py lines 22-67): the body's result,
with any exception caught and mapped to "Uncertain". -/
def determine_grid_status (d : PyDict) : String :=
  match determine_grid_status_body d with
  | some s => s
  | Option.none => "Uncertain"

/-- An inverter response whose fields used by `determine_grid_status` are
all well-typed: a string run mode and float grid power, voltages and EPS
powers. -/
structure GridReading where
  runMode : String
  gridPower : ℚ
  v1 : ℚ
  v2 : ℚ
  v3 : ℚ
  e1 : ℚ
  e2 : ℚ
  e3 : ℚ

/-- The reading dictionary holding a `GridReading`'s fields. -/
def GridReading.toDict (r : GridReading) : PyDict :=
  [("Run mode text", PyVal.str r.runMode),
   ("Grid Power ", PyVal.float r.gridPower),
   ("Grid 1 Voltage", PyVal.float r.v1),
   ("Grid 2 Voltage", PyVal.float r.v2),
   ("Grid 3 Voltage", PyVal.float r.v3),
   ("EPS 1 Power", PyVal.float r.e1),
   ("EPS 2 Power", PyVal.float r.e2),
   ("EPS 3 Power", PyVal.float r.e3)]

/-- Discriminator for 200 responses of the status server. -/
def HttpResponse.isOk : HttpResponse → Bool
  | HttpResponse.okResp _ _ => true
  | HttpResponse.errorResp _ _ => false

/-- The Reading of the end-to-end scenario of C7: grid power -250.0, PV
powers 600 and 0, battery 80, load 900. -/
def readingC7 : PyDict :=
  [("Grid Power ", PyVal.float (-250)),
   ("PV1 Power", PyVal.int 600),
   ("PV2 Power", PyVal.int 0),
   ("Battery Remaining Capacity", PyVal.int 80),
   ("Load/Generator Power", PyVal.int 900)]

/-- C1: for a reading whose four monitored fields all convert to float, the
critical predicate holds iff combined PV power is below 100, battery
percent below 5 and grid power exactly 0; if converting any of the four
fields raises, the predicate is false. -/
theorem check_critical_conditions_spec (d : PyDict) :
    (∀ pv1 pv2 bat grid,
      pyFloat (pyGet d "PV1 Power" (PyVal.float 0)) = some pv1 →
      pyFloat (pyGet d "PV2 Power" (PyVal.float 0)) = some pv2 →
      pyFloat (pyGet d "Battery Remaining Capacity" (PyVal.float 0)) = some bat →
      pyFloat (pyGet d "Grid Power " (PyVal.float 0)) = some grid →
      (check_critical_conditions d = true ↔ (pv1 + pv2 < 100 ∧ bat < 5 ∧ grid = 0)))
    ∧ ((pyFloat (pyGet d "PV1 Power" (PyVal.float 0)) = Option.none ∨
        pyFloat (pyGet d "PV2 Power" (PyVal.float 0)) = Option.none ∨
        pyFloat (pyGet d "Battery Remaining Capacity" (PyVal.float 0)) = Option.none ∨
        pyFloat (pyGet d "Grid Power " (PyVal.float 0)) = Option.none) →
       check_critical_conditions d = false) := by
  constructor
  · intro pv1 pv2 bat grid h1 h2 h3 h4
    unfold check_critical_conditions
    rw [h1, h2, h3, h4]
    simp
  · intro hnone
    unfold check_critical_conditions
    split
    · next h1 h2 h3 h4 =>
        rcases hnone with h | h | h | h <;> simp_all
    · rfl

/-- Witness for C1: a reading with PV powers 50 and 0, battery 3 and grid 0
satisfies the critical conditions, and a reading whose grid-power field is
None fails the conversion and yields false. -/
theorem check_critical_conditions_spec_witness :
    (check_critical_conditions
        [("PV1 Power", PyVal.float 50), ("PV2 Power", PyVal.float 0),
         ("Battery Remaining Capacity", PyVal.float 3), ("Grid Power ", PyVal.float 0)] = true
      ↔ ((50 : ℚ) + 0 < 100 ∧ (3 : ℚ) < 5 ∧ (0 : ℚ) = 0))
    ∧ check_critical_conditions [("Grid Power ", PyVal.none)] = false := by
  constructor
  · exact (check_critical_conditions_spec _).1 50 0 3 0 rfl rfl rfl rfl
  · exact (check_critical_conditions_spec _).2 (Or.inr (Or.inr (Or.inr rfl)))

/-- C2: on a numeric (float) grid-power argument the classifier returns
("Disconnected", "OFF") at exactly 0, a "Consuming |g|W" label with
connection "ON" on negative values, and a "Feeding gW" label with
connection "ON" on positive values. -/
theorem get_grid_status_numeric_spec (g : ℚ) :
    (g = 0 → get_grid_status (PyVal.float g) = ("Disconnected", "OFF"))
    ∧ (g < 0 → get_grid_status (PyVal.float g) = ("Consuming " ++ pyFloatStr |g| ++ "W", "ON"))
    ∧ (0 < g → get_grid_status (PyVal.float g) = ("Feeding " ++ pyFloatStr g ++ "W", "ON")) := by
  refine ⟨fun h0 => ?_, fun hneg => ?_, fun hpos => ?_⟩
  · simp [get_grid_status, pyFloat, h0]
  · simp [get_grid_status, pyFloat, ne_of_lt hneg, not_lt_of_gt hneg, hneg]
  · simp [get_grid_status, pyFloat, (ne_of_lt hpos).symm, not_lt_of_gt hpos, hpos]

/-- Witness for C2: evaluation at 0, -250 and 250. -/
theorem get_grid_status_numeric_spec_witness :
    get_grid_status (PyVal.float 0) = ("Disconnected", "OFF")
    ∧ get_grid_status (PyVal.float (-250)) = ("Consuming " ++ pyFloatStr |(-250 : ℚ)| ++ "W", "ON")
    ∧ get_grid_status (PyVal.float 250) = ("Feeding " ++ pyFloatStr 250 ++ "W", "ON") :=
  ⟨(get_grid_status_numeric_spec 0).1 rfl,
   (get_grid_status_numeric_spec (-250)).2.1 (by norm_num),
   (get_grid_status_numeric_spec 250).2.2 (by norm_num)⟩

/-- C8: any argument whose float conversion raises yields ("Error",
"Unknown") from the grid classifier; as a total Lean function the
classifier never raises. -/
theorem get_grid_status_nonnumeric (v : PyVal) (h : pyFloat v = Option.none) :
    get_grid_status v = ("Error", "Unknown") := by
  simp [get_grid_status, h]

/-- Witness for C8: evaluation at Python None. -/
theorem get_grid_status_nonnumeric_witness :
    get_grid_status PyVal.none = ("Error", "Unknown") :=
  get_grid_status_nonnumeric PyVal.none rfl

/-- C10: a reading whose dictionary lacks all four monitored keys satisfies
the critical predicate: every field defaults to 0.0 and the defaults meet
all three thresholds. -/
theorem check_critical_conditions_missing_keys (d : PyDict)
    (h1 : List.find? (fun p => p.1 == "PV1 Power") d = Option.none)
    (h2 : List.find? (fun p => p.1 == "PV2 Power") d = Option.none)
    (h3 : List.find? (fun p => p.1 == "Battery Remaining Capacity") d = Option.none)
    (h4 : List.find? (fun p => p.1 == "Grid Power ") d = Option.none) :
    check_critical_conditions d = true := by
  have g1 : pyGet d "PV1 Power" (PyVal.float 0) = PyVal.float 0 := by simp [pyGet, h1]
  have g2 : pyGet d "PV2 Power" (PyVal.float 0) = PyVal.float 0 := by simp [pyGet, h2]
  have g3 : pyGet d "Battery Remaining Capacity" (PyVal.float 0) = PyVal.float 0 := by
    simp [pyGet, h3]
  have g4 : pyGet d "Grid Power " (PyVal.float 0) = PyVal.float 0 := by simp [pyGet, h4]
  unfold check_critical_conditions
  rw [g1, g2, g3, g4]
  norm_num [pyFloat]

/-- Witness for C10: the empty reading dictionary. -/
theorem check_critical_conditions_missing_keys_witness :
    check_critical_conditions [] = true :=
  check_critical_conditions_missing_keys [] rfl rfl rfl rfl

lemma alertsSep_cycle_append (r : Option PyDict) (t : List MEvent) :
    alertsSep (cycleTrace r ++ t) false = alertsSep t false := by
  cases r with
  | none => simp [cycleTrace, alertsSep]
  | some d =>
      by_cases h : check_critical_conditions d <;>
        simp [cycleTrace, h, alertsSep]

lemma noPollInCooldown_cycle_append (r : Option PyDict) (t : List MEvent) :
    noPollInCooldown (cycleTrace r ++ t) false = noPollInCooldown t false := by
  cases r with
  | none => simp [cycleTrace, noPollInCooldown]
  | some d =>
      by_cases h : check_critical_conditions d <;>
        simp [cycleTrace, h, noPollInCooldown]

/-- C3: over any run of the monitor loop, no second alert fires before the
pending escalation (cooldown sleep followed by the shutdown call)
completes, no poll occurs inside a cooldown window, and each cycle
dispatches at most one alert. -/
theorem monitor_alert_discipline (rs : List (Option PyDict)) :
    alertsSep (monitorTrace rs) false = true
    ∧ noPollInCooldown (monitorTrace rs) false = true
    ∧ ∀ r : Option PyDict, (cycleTrace r).countP (fun e => e == MEvent.alert) ≤ 1 := by
  refine ⟨?_, ?_, ?_⟩
  · induction rs with
    | nil => rfl
    | cons r rest ih =>
        show alertsSep (cycleTrace r ++ monitorTrace rest) false = true
        rw [alertsSep_cycle_append]
        exact ih
  · induction rs with
    | nil => rfl
    | cons r rest ih =>
        show noPollInCooldown (cycleTrace r ++ monitorTrace rest) false = true
        rw [noPollInCooldown_cycle_append]
        exact ih
  · intro r
    cases r with
    | none => simp [cycleTrace]
    | some d =>
        by_cases h : check_critical_conditions d <;> simp [cycleTrace, h]

/-- C4: a failed poll (fetch raised, timed out or returned None) leaves the
monitor state — the published Snapshot and the alert bookkeeping — exactly
as it was, and the cycle still ends with the end-of-cycle sleep. -/
theorem failed_poll_frame (s : MonitorState) :
    monitorCycleState s Option.none = s
    ∧ cycleTrace Option.none = [MEvent.poll, MEvent.sleepInterval] :=
  ⟨rfl, rfl⟩

/-- C5: while no Snapshot has ever been published the status server answers
every GET with error 500 "No data available" and never with a 200 response
(so never with a body carrying a Grid value). -/
theorem status_server_no_snapshot (m : MonitorState)
    (h : m.current_data = Option.none) :
    do_GET (some m) = HttpResponse.errorResp 500 "No data available"
    ∧ (do_GET (some m)).isOk = false := by
  have he : do_GET (some m) = HttpResponse.errorResp 500 "No data available" := by
    simp [do_GET, h]
  exact ⟨he, by rw [he]; rfl⟩

/-- Witness for C5: a freshly constructed monitor state. -/
theorem status_server_no_snapshot_witness :
    do_GET (some { last_alert_time := 0, current_data := Option.none }) =
      HttpResponse.errorResp 500 "No data available" :=
  (status_server_no_snapshot { last_alert_time := 0, current_data := Option.none } rfl).1

/-- Counterexample for C6: at a concrete invocation the dispatcher's return
value is Python None, not a success boolean — the function body has no
return statement on either path. -/
theorem send_discord_alert_no_bool_cex :
    (send_discord_alert "https://example.invalid/webhook" "alert" true).2.2 = PyVal.none
    ∧ ((send_discord_alert "https://example.invalid/webhook" "alert" true).2.2
        == PyVal.bool true) = false
    ∧ ((send_discord_alert "https://example.invalid/webhook" "alert" true).2.2
        == PyVal.bool false) = false :=
  ⟨rfl, rfl, rfl⟩

/-- C6 (amended): the dispatcher makes exactly one outbound call to the
configured webhook URL with payload content=message, catches every
transport failure and logs it as an error (success is logged as info), and
returns None on both paths — the outcome is not reported to the caller as
a boolean, and nothing is raised to the monitor loop. -/
theorem send_discord_alert_spec (u m : String) (b : Bool) :
    (send_discord_alert u m b).1 = [{ url := u, payload := [("content", m)] }]
    ∧ (send_discord_alert u m b).2.2 = PyVal.none
    ∧ (send_discord_alert u m true).2.1 = [(LogLevel.error, "Failed to send Discord alert")]
    ∧ (send_discord_alert u m false).2.1 = [(LogLevel.info, "Discord alert sent: " ++ m)] := by
  refine ⟨rfl, rfl, rfl, rfl⟩

/-- C7: with that Reading published, a GET returns 200 with exactly the
four-field JSON body of the spec's scenario. -/
theorem status_endpoint_scenario :
    do_GET (some { last_alert_time := 0, current_data := some readingC7 }) =
      HttpResponse.okResp 200
        [("Grid", "Consuming 250.0W (ON)"),
         ("Solar Panels", "600W"),
         ("Batteries", "80%"),
         ("Home Consumption", "900W")]
    ∧ jsonDumps
        [("Grid", "Consuming 250.0W (ON)"),
         ("Solar Panels", "600W"),
         ("Batteries", "80%"),
         ("Home Consumption", "900W")] =
      "\x7b\"Grid\": \"Consuming 250.0W (ON)\", \"Solar Panels\": \"600W\", \"Batteries\": \"80%\", \"Home Consumption\": \"900W\"\x7d" := by
  constructor
  · decide
  · decide

lemma epsBranch_floats (a b c : ℚ) (d : PyDict)
    (h6 : pyGet d "EPS 1 Power" (PyVal.int 0) = PyVal.float a)
    (h7 : pyGet d "EPS 2 Power" (PyVal.int 0) = PyVal.float b)
    (h8 : pyGet d "EPS 3 Power" (PyVal.int 0) = PyVal.float c) :
    epsBranch d = some (if 0 < a ∨ 0 < b ∨ 0 < c then "Off-Grid" else "Uncertain") := by
  by_cases ha : 0 < a <;> by_cases hb : 0 < b <;> by_cases hc : 0 < c <;>
    simp [epsBranch, anyGtZero, pyGtZero, h6, h7, h8, ha, hb, hc]

lemma anyGtZero_floats (a b c : ℚ) :
    anyGtZero [PyVal.float a, PyVal.float b, PyVal.float c]
      = some (decide (0 < a) || decide (0 < b) || decide (0 < c)) := by
  by_cases ha : 0 < a <;> by_cases hb : 0 < b <;> by_cases hc : 0 < c <;>
    simp [anyGtZero, pyGtZero, ha, hb, hc]

/-- C9: on a well-typed inverter response the secondary classifier returns
On-Grid exactly when the run mode lower-cases to "normal", some grid-phase
voltage is positive and absolute grid power is below 500; otherwise
Off-Grid exactly when some EPS power channel is positive; otherwise
Uncertain.  Any exception during field extraction (a `Option.none` body)
is caught and mapped to Uncertain. -/
theorem determine_grid_status_spec (r : GridReading) :
    (determine_grid_status r.toDict =
      if r.runMode.toLower = "normal" ∧ (0 < r.v1 ∨ 0 < r.v2 ∨ 0 < r.v3)
          ∧ |r.gridPower| < 500 then "On-Grid"
      else if 0 < r.e1 ∨ 0 < r.e2 ∨ 0 < r.e3 then "Off-Grid"
      else "Uncertain")
    ∧ (∀ d : PyDict, determine_grid_status_body d = Option.none →
        determine_grid_status d = "Uncertain") := by
  constructor
  · have h1 : pyGet r.toDict "Run mode text" (PyVal.str "") = PyVal.str r.runMode := rfl
    have h2 : pyGet r.toDict "Grid Power " (PyVal.int 0) = PyVal.float r.gridPower := rfl
    have h3 : pyGet r.toDict "Grid 1 Voltage" (PyVal.int 0) = PyVal.float r.v1 := rfl
    have h4 : pyGet r.toDict "Grid 2 Voltage" (PyVal.int 0) = PyVal.float r.v2 := rfl
    have h5 : pyGet r.toDict "Grid 3 Voltage" (PyVal.int 0) = PyVal.float r.v3 := rfl
    have hcast : ((500 : Int) : ℚ) = (500 : ℚ) := by norm_num
    have heps := epsBranch_floats r.e1 r.e2 r.e3 r.toDict rfl rfl rfl
    by_cases hrm : r.runMode.toLower = "normal" <;>
      by_cases ha : 0 < r.v1 <;> by_cases hb : 0 < r.v2 <;> by_cases hc : 0 < r.v3 <;>
        by_cases hg : |r.gridPower| < (500 : ℚ) <;>
          simp [determine_grid_status, determine_grid_status_body, pyLower, pyAbsLtInt,
            anyGtZero_floats, hcast, heps, h1, h2, h3, h4, h5, hrm, ha, hb, hc, hg]
  · intro d h
    simp [determine_grid_status, h]

/-- Witness for C9: a response whose run-mode field is an int makes the
`.lower()` call raise, and the classifier answers Uncertain. -/
theorem determine_grid_status_spec_witness :
    determine_grid_status [("Run mode text", PyVal.int 5)] = "Uncertain" :=
  (determine_grid_status_spec ⟨"normal", 0, 0, 0, 0, 0, 0, 0⟩).2
    [("Run mode text", PyVal.int 5)] rfl
